import Mathlib

/-!
Verification of the Trip & Reservation Accounting logic of the
scan-drive-log fleet-tracking application.

The embedding translates the client-side business logic (TypeScript,
operating through a CRUD query layer) into pure Lean functions:
  * timestamps and mileages are integers;
  * nullable columns are `Option` values;
  * a fallible backend call is modelled by an explicit success flag;
  * JavaScript truthiness on numbers (`0` is falsy) and on nullable
    values is modelled explicitly where the source relies on it.
-/

namespace ScanDriveLog

/-- Reservation status enum, from the `reservation_status` SQL enum:
pending, active, completed, cancelled. -/
inductive ReservationStatus where
  | pending
  | active
  | completed
  | cancelled
deriving DecidableEq, Repr

/-- A vehicle reservation row, as read by the client
(`vehicle_reservations` table; interface Reservation in
VehicleReservations.tsx). Times are integer timestamps. -/
structure Reservation where
  id : Nat
  user_id : Nat
  vehicle_id : Nat
  start_time : Int
  end_time : Int
  status : ReservationStatus
  notes : Option String
deriving DecidableEq, Repr

/-- A trip row as read by the client (`trips` table). -/
structure Trip where
  id : Nat
  user_id : Nat
  vehicle_id : Nat
  destination : String
  purpose : Option String
  start_mileage : Int
  end_mileage : Option Int
  start_time : Int
  end_time : Option Int
  is_active : Bool
  range_remaining : Option Int
deriving DecidableEq, Repr

/-! ### Reservation availability (VehicleReservations.tsx, checkAvailability)

The supabase query is
  .eq("vehicle_id", vehicleId)
  .in("status", ["pending", "active"])
  .or("start_time.lte.END,end_time.gte.START")
The chained filters are conjoined, and the comma inside `.or` makes a
DISJUNCTION of the two bound tests.  The function returns true
(available) exactly when no row matches. -/

/-- Row filter of the availability query: same vehicle, status pending
or active, and `start_time ≤ end OR end_time ≥ start` (the `.or` filter
is a disjunction in the source). -/
def availabilityRowMatch (vehicleId : Nat) (s e : Int) (r : Reservation) : Bool :=
  r.vehicle_id == vehicleId &&
  (r.status == .pending || r.status == .active) &&
  (decide (r.start_time ≤ e) || decide (r.end_time ≥ s))

/-- checkAvailability: true iff the filtered row set is empty
(`data.length === 0`). -/
def checkAvailability (rows : List Reservation) (vehicleId : Nat) (s e : Int) : Bool :=
  (rows.filter (availabilityRowMatch vehicleId s e)).length == 0

/-- Overlap predicate as the specification states it: an existing
reservation overlaps the candidate window when
`existing.start ≤ candidate.end AND existing.end ≥ candidate.start`
(conjunction).  Stated here only to compare with the implemented query. -/
def overlapPerSpec (r : Reservation) (s e : Int) : Bool :=
  decide (r.start_time ≤ e) && decide (r.end_time ≥ s)

/-! ### Distance display (TripHistory.tsx, calculateDistance)

The source guards with `if (trip.end_mileage && trip.start_mileage)`,
JavaScript truthiness: null and 0 are both falsy. -/

/-- calculateDistance: returns `end_mileage - start_mileage` when both
`end_mileage` and `start_mileage` are truthy (non-null and nonzero),
null otherwise. -/
def calculateDistance (t : Trip) : Option Int :=
  match t.end_mileage with
  | some e => if e != 0 && t.start_mileage != 0 then some (e - t.start_mileage) else none
  | none => none

/-! ### Reservation cancellation (VehicleReservations.tsx) -/

/-- cancelReservation issues
`.update({ status: "cancelled" }).eq("id", id)`:
every row with the given id gets status cancelled; no other column is
written and no current-status guard is applied in the update itself. -/
def cancelReservation (rows : List Reservation) (id : Nat) : List Reservation :=
  rows.map fun r => if r.id == id then { r with status := .cancelled } else r

/-- The cancel button is rendered only for reservations whose status is
pending (`reservation.status === "pending"` guard around the action
buttons in VehicleReservations.tsx). -/
def cancelActionOffered (r : Reservation) : Bool :=
  r.status == .pending

/-! ### Input validation schemas (StartTrip.tsx / ActiveTrips)

`mileageSchema = z.coerce.number().int().min(0).max(999999)` and
`destinationSchema = z.string().trim().min(3).max(200)`.
Mileage inputs are modelled after numeric coercion, so the schema is the
range test on an integer. -/

/-- mileageSchema: a mileage integer is accepted iff `0 ≤ m ≤ 999999`. -/
def mileageValid (m : Int) : Bool :=
  decide (0 ≤ m) && decide (m ≤ 999999)

/-- JavaScript string trim: drop whitespace from both ends. -/
def jsTrim (s : String) : String :=
  ⟨((s.data.dropWhile Char.isWhitespace).reverse.dropWhile Char.isWhitespace).reverse⟩

/-- destinationSchema: the trimmed destination must have length in
`[3, 200]`. -/
def destinationValid (d : String) : Bool :=
  decide (3 ≤ (jsTrim d).data.length) && decide ((jsTrim d).data.length ≤ 200)

/-! ### Ending a trip (ActiveTrips, handleEndTrip) -/

/-- Outcome of handleEndTrip: a validation failure leaves the trip row
untouched; success returns the updated row. -/
inductive EndTripOutcome where
  | validationError (t : Trip)
  | ended (t : Trip)
deriving DecidableEq, Repr

/-- handleEndTrip: parse the end mileage against mileageSchema, reject
if it is below the recorded start mileage, otherwise update the row with
`end_mileage`, `end_time = now`, `is_active = false`. -/
def handleEndTrip (t : Trip) (endMileage : Int) (now : Int) : EndTripOutcome :=
  if !mileageValid endMileage then .validationError t
  else if endMileage < t.start_mileage then .validationError t
  else .ended { t with end_mileage := some endMileage,
                       end_time := some now,
                       is_active := false }

/-! ### Starting a trip (StartTrip.tsx, handleSubmit) -/

/-- Row inserted into `trips` by handleSubmit. -/
structure TripInsert where
  user_id : Nat
  vehicle_id : Nat
  destination : String
  purpose : Option String
  start_mileage : Int
  is_active : Bool
deriving DecidableEq, Repr

/-- Outcome of handleSubmit. -/
inductive StartTripOutcome where
  | validationError
  | noVehicleSelected
  | inserted (row : TripInsert)
deriving DecidableEq, Repr

/-- handleSubmit: validates destination, then mileage, then requires a
selected vehicle, then inserts the trip row with trimmed destination,
`purpose.trim() || null`, and `is_active = true`. -/
def handleSubmit (userId : Nat) (selectedVehicle : Option Nat)
    (destination purpose : String) (startMileage : Int) : StartTripOutcome :=
  if !destinationValid destination then .validationError
  else if !mileageValid startMileage then .validationError
  else
    match selectedVehicle with
    | none => .noVehicleSelected
    | some v =>
        .inserted { user_id := userId, vehicle_id := v,
                    destination := jsTrim destination,
                    purpose := if (jsTrim purpose).data.isEmpty then none
                               else some (jsTrim purpose),
                    start_mileage := startMileage,
                    is_active := true }

/-! ### Low-range warning (StartTrip.tsx)

fetchVehicles stores `tripData?.range_remaining || null` for the most
recent trip of each vehicle, and the screen shows a warning when
`selectedVehicleData?.range_remaining && range_remaining < 130`.
Both steps use JavaScript truthiness, under which 0 is falsy. -/

/-- Range value stored by fetchVehicles for a vehicle, from its most
recent trip (`tripData?.range_remaining || null`): absent when there is
no trip, when the trip has no recorded range, or when the recorded range
is 0 (falsy). -/
def fetchedRangeRemaining (latestTrip : Option Trip) : Option Int :=
  match latestTrip with
  | none => none
  | some t =>
      match t.range_remaining with
      | none => none
      | some r => if r == 0 then none else some r

/-- Warning display condition on the trip-start screen:
`range_remaining && range_remaining < 130`. -/
def lowRangeWarningShown (rangeRemaining : Option Int) : Bool :=
  match rangeRemaining with
  | none => false
  | some r => r != 0 && decide (r < 130)

/-! ### JavaScript parseInt (radix 10, as used on mileage inputs) -/

/-- Numeric value of the leading run of decimal digits. -/
def digitsVal (cs : List Char) : Nat :=
  (cs.takeWhile Char.isDigit).foldl (fun n c => 10 * n + (c.toNat - 48)) 0

/-- Parses a leading digit run; none (NaN) when there is no digit. -/
def parseDigits (cs : List Char) : Option Int :=
  if (cs.takeWhile Char.isDigit).isEmpty then none else some (digitsVal cs)

/-- JavaScript `parseInt(s)` with radix 10: skip surrounding whitespace,
allow one sign, read the leading digit run, NaN (none) otherwise. -/
def parseIntJS (str : String) : Option Int :=
  match (jsTrim str).data with
  | '-' :: rest => (parseDigits rest).map (fun n => -n)
  | '+' :: rest => parseDigits rest
  | cs => parseDigits cs

/-! ### Converting a reservation into a trip (VehicleReservations.tsx,
startTripFromReservation)

The handler issues two independent backend calls: an insert into `trips`
and an update of the reservation status to active.  Each call may fail;
the catch block only reports the error, it undoes nothing.  The success
of each call is modelled by an explicit flag. -/

/-- Row inserted into `trips` by startTripFromReservation.  The
start mileage is `parseInt(startMileage)` (none models NaN) and the
destination is `reservation.notes || "Reserva"`. -/
structure ResvTripInsert where
  user_id : Nat
  vehicle_id : Nat
  start_mileage : Option Int
  destination : String
  start_time : Int
deriving DecidableEq, Repr

/-- The backend state touched by the conversion: trip rows and
reservation rows. -/
structure Database where
  trips : List ResvTripInsert
  reservations : List Reservation
deriving DecidableEq, Repr

/-- Outcome of startTripFromReservation, carrying the backend state
after the handler returns. -/
inductive ResvStartOutcome where
  | missingInput (db : Database)
  | tripInsertError (db : Database)
  | reservationUpdateError (db : Database)
  | success (db : Database)
deriving DecidableEq, Repr

/-- The trip row built by startTripFromReservation before insertion.
No schema validation is applied to the mileage or the destination. -/
def reservationTripRow (userId : Nat) (resv : Reservation)
    (startMileage : String) (now : Int) : ResvTripInsert :=
  { user_id := userId,
    vehicle_id := resv.vehicle_id,
    start_mileage := parseIntJS startMileage,
    destination := resv.notes.getD "Reserva",
    start_time := now }

/-- Update of a reservation status by id
(`.update({ status }).eq("id", id)`). -/
def setReservationStatus (rows : List Reservation) (id : Nat)
    (st : ReservationStatus) : List Reservation :=
  rows.map fun r => if r.id == id then { r with status := st } else r

/-- startTripFromReservation: guard on a non-empty mileage string, then
insert the trip row, then set the reservation status to active.  When
the status update fails after a successful insert, the handler keeps the
inserted trip (the catch block performs no compensation). -/
def startTripFromReservation (db : Database) (userId : Nat)
    (resv : Reservation) (startMileage : String) (now : Int)
    (insertOk updateOk : Bool) : ResvStartOutcome :=
  if startMileage == "" then .missingInput db
  else if !insertOk then .tripInsertError db
  else
    let db1 : Database :=
      { db with trips := db.trips ++ [reservationTripRow userId resv startMileage now] }
    if !updateOk then .reservationUpdateError db1
    else .success { db1 with
                    reservations := setReservationStatus db1.reservations resv.id .active }

/-! ### User rankings (UserRankings, fetchRankings)

The query selects trips with non-null `end_mileage`; the client folds
them into a map keyed by user (insertion order preserved, modelled by an
association list) and sorts the values by total kilometres descending
(`(a, b) => b.total_km - a.total_km`, a stable sort). -/

/-- Trip row as selected by the rankings query. -/
structure RankingTripRow where
  user_id : Nat
  full_name : Option String
  start_mileage : Int
  end_mileage : Option Int
deriving DecidableEq, Repr

/-- Aggregated ranking entry for one user. -/
structure UserRanking where
  user_id : Nat
  full_name : String
  total_km : Int
  total_trips : Nat
deriving DecidableEq, Repr

/-- Distance of one fetched trip: `(end_mileage || 0) - start_mileage`
(the query guarantees a non-null end mileage, and `e || 0` agrees with
`getD 0` on every integer). -/
def rankingDistance (t : RankingTripRow) : Int :=
  t.end_mileage.getD 0 - t.start_mileage

/-- One step of the rankings fold: update the existing entry of the
user, or append a fresh entry with this trip counted once. -/
def rankingAddTrip (acc : List UserRanking) (t : RankingTripRow) : List UserRanking :=
  if acc.any (fun u => u.user_id == t.user_id) then
    acc.map fun u =>
      if u.user_id == t.user_id then
        { u with total_km := u.total_km + rankingDistance t,
                 total_trips := u.total_trips + 1 }
      else u
  else
    acc ++ [{ user_id := t.user_id,
              full_name := t.full_name.getD "Utilizador",
              total_km := rankingDistance t,
              total_trips := 1 }]

/-- Comparator `(a, b) => b.total_km - a.total_km` as a boolean order:
a may come before b exactly when `b.total_km ≤ a.total_km`. -/
def byTotalKmDesc (a b : UserRanking) : Bool :=
  decide (b.total_km ≤ a.total_km)

/-- fetchRankings: keep the trips with non-null end mileage, fold them
into per-user totals, sort descending by total kilometres. -/
def fetchRankings (trips : List RankingTripRow) : List UserRanking :=
  ((trips.filter (fun t => t.end_mileage.isSome)).foldl rankingAddTrip []).mergeSort
    byTotalKmDesc

/-! ### Vehicle statistics (VehicleStats.tsx, fetchStats) -/

/-- Trip row as selected by the statistics query. -/
structure StatTripRow where
  vehicle_id : Nat
  vehicle_name : Option String
  license_plate : Option String
  start_mileage : Int
  end_mileage : Option Int
deriving DecidableEq, Repr

/-- Aggregated statistics entry for one vehicle. -/
structure VehicleStat where
  vehicle_id : Nat
  vehicle_name : String
  license_plate : String
  total_trips : Nat
  total_km : Int
  avg_km_per_trip : ℚ
  active_issues : Nat
deriving DecidableEq, Repr

/-- Distance of one fetched trip, as in the rankings. -/
def statDistance (t : StatTripRow) : Int :=
  t.end_mileage.getD 0 - t.start_mileage

/-- Unresolved issue count per vehicle: the issues query returns the
vehicle ids of observations with type issue and `is_resolved = false`,
and the client counts occurrences per vehicle. -/
def issueCount (issues : List Nat) (vid : Nat) : Nat :=
  (issues.filter (fun v => v == vid)).length

/-- One step of the statistics fold: update the existing entry of the
vehicle, or append a fresh entry (average initialised to 0, filled in
afterwards). -/
def statAddTrip (issues : List Nat) (acc : List VehicleStat)
    (t : StatTripRow) : List VehicleStat :=
  if acc.any (fun v => v.vehicle_id == t.vehicle_id) then
    acc.map fun v =>
      if v.vehicle_id == t.vehicle_id then
        { v with total_km := v.total_km + statDistance t,
                 total_trips := v.total_trips + 1 }
      else v
  else
    acc ++ [{ vehicle_id := t.vehicle_id,
              vehicle_name := t.vehicle_name.getD "Veículo",
              license_plate := t.license_plate.getD "N/A",
              total_trips := 1,
              total_km := statDistance t,
              avg_km_per_trip := 0,
              active_issues := issueCount issues t.vehicle_id }]

/-- Comparator on statistics entries, descending by total kilometres. -/
def statByKmDesc (a b : VehicleStat) : Bool :=
  decide (b.total_km ≤ a.total_km)

/-- fetchStats: keep the trips with non-null end mileage, fold them into
per-vehicle totals, set each average to `total_km / total_trips`, sort
descending by total kilometres. -/
def fetchStats (trips : List StatTripRow) (issues : List Nat) : List VehicleStat :=
  ((((trips.filter (fun t => t.end_mileage.isSome)).foldl (statAddTrip issues) []).map
      (fun v => { v with avg_km_per_trip := (v.total_km : ℚ) / (v.total_trips : ℚ) })).mergeSort
    statByKmDesc)

/-! ### Concrete rows used to evaluate the definitions -/

/-- A pending reservation of vehicle 1 over the window [10, 12]. -/
def resvPending10to12 : Reservation :=
  { id := 1, user_id := 1, vehicle_id := 1, start_time := 10, end_time := 12,
    status := .pending, notes := none }

/-- A pending reservation whose notes are shorter than the 3-character
destination minimum of startTrip. -/
def resvShortNotes : Reservation :=
  { id := 7, user_id := 1, vehicle_id := 3, start_time := 0, end_time := 1,
    status := .pending, notes := some "ab" }

/-- An open trip with start mileage 100. -/
def tripActive : Trip :=
  { id := 1, user_id := 1, vehicle_id := 1, destination := "Office",
    purpose := none, start_mileage := 100, end_mileage := none,
    start_time := 0, end_time := none, is_active := true,
    range_remaining := none }

/-- A closed trip that started at mileage 0 and ended at mileage 100. -/
def tripZeroStartClosed : Trip :=
  { id := 2, user_id := 1, vehicle_id := 1, destination := "Office",
    purpose := none, start_mileage := 0, end_mileage := some 100,
    start_time := 0, end_time := some 10, is_active := false,
    range_remaining := none }

/-- A closed trip from mileage 100 to mileage 150. -/
def tripClosedNormal : Trip :=
  { id := 3, user_id := 1, vehicle_id := 1, destination := "Office",
    purpose := none, start_mileage := 100, end_mileage := some 150,
    start_time := 0, end_time := some 10, is_active := false,
    range_remaining := none }

/-- A trip whose recorded remaining range is 0. -/
def tripRangeZero : Trip :=
  { tripClosedNormal with id := 4, range_remaining := some 0 }

/-- A trip whose recorded remaining range is 100 (below the 130
threshold). -/
def tripRange100 : Trip :=
  { tripClosedNormal with id := 5, range_remaining := some 100 }

/-- A trip whose recorded remaining range is 200 (above the 130
threshold). -/
def tripRange200 : Trip :=
  { tripClosedNormal with id := 6, range_remaining := some 200 }

/-- Specification measure for the rankings: total distance of the rows
of one user in a row list. -/
def sumKmBy (l : List RankingTripRow) (uid : Nat) : Int :=
  ((l.filter (fun t => t.user_id == uid)).map rankingDistance).sum

/-- Specification measure for the rankings: number of rows of one user
in a row list. -/
def countBy (l : List RankingTripRow) (uid : Nat) : Nat :=
  (l.filter (fun t => t.user_id == uid)).length

/-- A closed ranking row: user 1 drove from mileage 100 to 150. -/
def rankTripExample : RankingTripRow :=
  { user_id := 1, full_name := some "Ana", start_mileage := 100,
    end_mileage := some 150 }

/-- The ranking entry produced by the single closed row of user 1. -/
def rankEntryExample : UserRanking :=
  { user_id := 1, full_name := "Ana", total_km := 50, total_trips := 1 }

/-- A closed statistics row: vehicle 1 driven from mileage 100 to 150. -/
def statTripExample : StatTripRow :=
  { vehicle_id := 1, vehicle_name := some "Van", license_plate := some "AA-11",
    start_mileage := 100, end_mileage := some 150 }

/-- The statistics entry produced by the single closed row of
vehicle 1. -/
def statEntryExample : VehicleStat :=
  { vehicle_id := 1, vehicle_name := "Van", license_plate := "AA-11",
    total_trips := 1, total_km := 50, avg_km_per_trip := 50,
    active_issues := 0 }

/-! ## Theorems -/

/-- C1: the claim states that checkAvailability returns false iff some
pending or active reservation of the vehicle overlaps the candidate
window under `existing.start ≤ candidate.end AND existing.end ≥
candidate.start`.  The implemented supabase filter joins the two bound
tests with `.or`, so a pending reservation over [10, 12] also blocks the
disjoint candidate window [13, 14]: checkAvailability returns false
although no reservation overlaps under the stated test. -/
theorem checkAvailability_false_without_overlap :
    checkAvailability [resvPending10to12] 1 13 14 = false ∧
    overlapPerSpec resvPending10to12 13 14 = false ∧
    resvPending10to12.status = ReservationStatus.pending ∧
    resvPending10to12.vehicle_id = 1 := by
  decide

/-- C2: the claim states that startTripFromReservation creates the trip
and activates the reservation atomically, rolling back on partial
failure.  Evaluating the handler on an execution where the trip insert
succeeds and the status update fails shows the inserted trip is kept
while the reservation stays pending: no rollback happens. -/
theorem startTripFromReservation_not_atomic :
    startTripFromReservation { trips := [], reservations := [resvPending10to12] }
        1 resvPending10to12 "100" 20 true false =
      ResvStartOutcome.reservationUpdateError
        { trips := [reservationTripRow 1 resvPending10to12 "100" 20],
          reservations := [resvPending10to12] } ∧
    (reservationTripRow 1 resvPending10to12 "100" 20).start_mileage = some 100 ∧
    resvPending10to12.status = ReservationStatus.pending := by
  refine ⟨rfl, by decide, rfl⟩

/-- C3: ending a trip with an end mileage below the recorded start
mileage fails with a validation error and returns the row unchanged;
with an in-range end mileage at or above the start mileage, the row is
updated with the end mileage, the end time, and `is_active = false`. -/
theorem handleEndTrip_spec (t : Trip) (e now : Int) :
    (e < t.start_mileage → handleEndTrip t e now = EndTripOutcome.validationError t) ∧
    (t.start_mileage ≤ e → mileageValid e = true →
      handleEndTrip t e now =
        EndTripOutcome.ended { t with end_mileage := some e, end_time := some now,
                                      is_active := false }) := by
  constructor
  · intro hlt
    by_cases hv : mileageValid e = true
    · simp [handleEndTrip, hv, hlt]
    · simp only [Bool.not_eq_true] at hv
      simp [handleEndTrip, hv]
  · intro hle hv
    simp [handleEndTrip, hv, not_lt.mpr hle]

/-- C3 witness: ending the open trip at start mileage 100 with end
mileage 50 is rejected and leaves the row unchanged; with end mileage
150 the row is closed. -/
theorem handleEndTrip_spec_witness :
    handleEndTrip tripActive 50 5 = EndTripOutcome.validationError tripActive ∧
    handleEndTrip tripActive 150 5 =
      EndTripOutcome.ended { tripActive with end_mileage := some 150,
                                             end_time := some 5,
                                             is_active := false } :=
  ⟨(handleEndTrip_spec tripActive 50 5).1 (by decide),
   (handleEndTrip_spec tripActive 150 5).2 (by decide) (by decide)⟩

/-- C4 counterexample: the claim states that the displayed distance
equals `end_mileage - start_mileage` whenever the trip is closed.  The
source guards with JavaScript truthiness, so the closed trip from
mileage 0 to mileage 100 displays no distance instead of 100. -/
theorem calculateDistance_zero_start_counterexample :
    tripZeroStartClosed.end_mileage = some 100 ∧
    tripZeroStartClosed.start_mileage = 0 ∧
    calculateDistance tripZeroStartClosed = none := by
  decide

/-- C4 amended: the displayed distance equals
`end_mileage - start_mileage` when the trip is closed and both recorded
mileages are nonzero; it is absent when the trip is open, and also
absent when either recorded mileage is zero. -/
theorem calculateDistance_spec (t : Trip) :
    (∀ e, t.end_mileage = some e → e ≠ 0 → t.start_mileage ≠ 0 →
      calculateDistance t = some (e - t.start_mileage)) ∧
    (t.end_mileage = none → calculateDistance t = none) ∧
    (∀ e, t.end_mileage = some e → (e = 0 ∨ t.start_mileage = 0) →
      calculateDistance t = none) := by
  refine ⟨?_, ?_, ?_⟩
  · intro e he h1 h2
    simp [calculateDistance, he, h1, h2]
  · intro he
    simp [calculateDistance, he]
  · intro e he h
    rcases h with h | h <;> simp [calculateDistance, he, h]

/-- C4 amended witness: the closed trip from mileage 100 to 150
displays distance 50, and the open trip displays none. -/
theorem calculateDistance_spec_witness :
    calculateDistance tripClosedNormal = some 50 ∧
    calculateDistance tripActive = none := by
  constructor
  · have h := (calculateDistance_spec tripClosedNormal).1 150 rfl
      (by decide) (by decide)
    simpa [tripClosedNormal] using h
  · exact (calculateDistance_spec tripActive).2.1 rfl

/-- C6: with a valid destination and a selected vehicle, startTrip
accepts a start mileage m and inserts the trip row exactly when
`0 ≤ m ≤ 999999`. -/
theorem handleSubmit_mileage_spec (userId v : Nat) (d p : String) (m : Int)
    (hd : destinationValid d = true) :
    (∃ row, handleSubmit userId (some v) d p m = StartTripOutcome.inserted row ∧
        row.start_mileage = m) ↔ (0 ≤ m ∧ m ≤ 999999) := by
  constructor
  · rintro ⟨row, hrow, -⟩
    by_cases hv : mileageValid m = true
    · simpa [mileageValid, decide_eq_true_iff] using hv
    · simp only [Bool.not_eq_true] at hv
      simp [handleSubmit, hd, hv] at hrow
  · intro hm
    have hv : mileageValid m = true := by
      simp [mileageValid, decide_eq_true_iff, hm.1, hm.2]
    exact ⟨{ user_id := userId, vehicle_id := v, destination := jsTrim d,
             purpose := if (jsTrim p).data.isEmpty then none else some (jsTrim p),
             start_mileage := m, is_active := true },
           by simp [handleSubmit, hd, hv], rfl⟩

/-- C6 witness: starting with mileage 999999 is accepted, while -1 and
1000000 are rejected. -/
theorem handleSubmit_mileage_spec_witness :
    (∃ row, handleSubmit 1 (some 2) "Lisboa" "" 999999 = StartTripOutcome.inserted row ∧
        row.start_mileage = 999999) ∧
    ¬(∃ row, handleSubmit 1 (some 2) "Lisboa" "" (-1) = StartTripOutcome.inserted row ∧
        row.start_mileage = -1) ∧
    ¬(∃ row, handleSubmit 1 (some 2) "Lisboa" "" 1000000 = StartTripOutcome.inserted row ∧
        row.start_mileage = 1000000) :=
  ⟨(handleSubmit_mileage_spec 1 2 "Lisboa" "" 999999 (by decide)).mpr (by decide),
   fun h => absurd ((handleSubmit_mileage_spec 1 2 "Lisboa" "" (-1) (by decide)).mp h)
     (by decide),
   fun h => absurd ((handleSubmit_mileage_spec 1 2 "Lisboa" "" 1000000 (by decide)).mp h)
     (by decide)⟩

/-- C7 counterexample: the claim states a low-range warning is surfaced
whenever the most recent trip recorded `range_remaining < 130`.  With a
recorded range of 0 (which is below 130), both the fetch step
(`|| null`) and the display guard treat 0 as falsy, so no warning is
shown. -/
theorem lowRangeWarning_zero_counterexample :
    tripRangeZero.range_remaining = some 0 ∧
    (0 : Int) < 130 ∧
    lowRangeWarningShown (fetchedRangeRemaining (some tripRangeZero)) = false := by
  decide

/-- C7 amended: for a vehicle whose most recent trip recorded range r,
the warning is shown exactly when r is nonzero and below 130; in
particular no warning is shown for r at or above 130; and submission of
a valid trip start is accepted regardless of the range (the warning
never blocks starting). -/
theorem lowRangeWarning_spec (t : Trip) (r : Int) (userId v : Nat)
    (d p : String) (m : Int) :
    (t.range_remaining = some r →
      (lowRangeWarningShown (fetchedRangeRemaining (some t)) = true ↔
        (r ≠ 0 ∧ r < 130))) ∧
    (t.range_remaining = some r → 130 ≤ r →
      lowRangeWarningShown (fetchedRangeRemaining (some t)) = false) ∧
    (destinationValid d = true → mileageValid m = true →
      ∃ row, handleSubmit userId (some v) d p m = StartTripOutcome.inserted row) := by
  refine ⟨?_, ?_, ?_⟩
  · intro hr
    by_cases h0 : r = 0
    · subst h0
      simp [fetchedRangeRemaining, hr, lowRangeWarningShown]
    · simp [fetchedRangeRemaining, hr, lowRangeWarningShown, h0,
        decide_eq_true_iff]
  · intro hr hge
    by_cases h0 : r = 0
    · subst h0
      simp [fetchedRangeRemaining, hr, lowRangeWarningShown]
    · simp [fetchedRangeRemaining, hr, lowRangeWarningShown, h0]
      omega
  · intro hd hm
    exact ⟨{ user_id := userId, vehicle_id := v, destination := jsTrim d,
             purpose := if (jsTrim p).data.isEmpty then none else some (jsTrim p),
             start_mileage := m, is_active := true },
           by simp [handleSubmit, hd, hm]⟩

/-- C7 amended witness: a recorded range of 100 shows the warning, a
recorded range of 200 does not, and a valid submission is accepted. -/
theorem lowRangeWarning_spec_witness :
    lowRangeWarningShown (fetchedRangeRemaining (some tripRange100)) = true ∧
    lowRangeWarningShown (fetchedRangeRemaining (some tripRange200)) = false ∧
    (∃ row, handleSubmit 1 (some 2) "Lisboa" "" 500 = StartTripOutcome.inserted row) :=
  ⟨((lowRangeWarning_spec tripRange100 100 1 2 "Lisboa" "" 500).1 rfl).mpr (by decide),
   (lowRangeWarning_spec tripRange200 200 1 2 "Lisboa" "" 500).2.1 rfl (by decide),
   (lowRangeWarning_spec tripRange200 200 1 2 "Lisboa" "" 500).2.2 (by decide) (by decide)⟩

/-- C8: the cancel action is offered exactly for pending reservations;
cancelling sets the status of the targeted row to cancelled and changes
no other field; and cancelling a second time is a no-op on the rows. -/
theorem cancelReservation_spec (rows : List Reservation) (r : Reservation) (id : Nat) :
    (cancelActionOffered r = true ↔ r.status = ReservationStatus.pending) ∧
    (r ∈ rows → r.id = id →
      { r with status := ReservationStatus.cancelled } ∈ cancelReservation rows id) ∧
    cancelReservation (cancelReservation rows id) id = cancelReservation rows id := by
  refine ⟨?_, ?_, ?_⟩
  · simp [cancelActionOffered]
  · intro hmem hid
    have := List.mem_map_of_mem
      (fun x : Reservation =>
        if x.id == id then { x with status := ReservationStatus.cancelled } else x) hmem
    simpa [cancelReservation, hid] using this
  · unfold cancelReservation
    rw [List.map_map]
    apply List.map_congr_left
    intro a _
    by_cases h : a.id = id <;> simp [h]

/-- C8 witness: cancelling the pending reservation once yields the
cancelled row with all other fields intact, and a second cancellation
changes nothing. -/
theorem cancelReservation_spec_witness :
    { resvPending10to12 with status := ReservationStatus.cancelled } ∈
      cancelReservation [resvPending10to12] 1 ∧
    cancelReservation (cancelReservation [resvPending10to12] 1) 1 =
      cancelReservation [resvPending10to12] 1 :=
  ⟨(cancelReservation_spec [resvPending10to12] resvPending10to12 1).2.1
      (by simp) rfl,
   (cancelReservation_spec [resvPending10to12] resvPending10to12 1).2.2⟩

/-- C10: startTripFromReservation applies none of the startTrip input
validations: for every non-empty mileage string and every reservation,
when the backend calls succeed it inserts a trip whose start mileage is
the raw `parseInt` of the input and whose destination is the
reservation notes (or "Reserva"), with no range or length check. -/
theorem startTripFromReservation_no_validation (db : Database) (userId : Nat)
    (resv : Reservation) (s : String) (now : Int) (h : s ≠ "") :
    startTripFromReservation db userId resv s now true true =
      ResvStartOutcome.success
        { trips := db.trips ++
            [{ user_id := userId, vehicle_id := resv.vehicle_id,
               start_mileage := parseIntJS s,
               destination := resv.notes.getD "Reserva",
               start_time := now }],
          reservations := setReservationStatus db.reservations resv.id
            ReservationStatus.active } := by
  simp [startTripFromReservation, h, reservationTripRow]

/-- C10 witness: the mileage string "-1" (below the 0 minimum of
mileageSchema) and the 2-character notes "ab" (below the 3-character
destination minimum) are inserted as given. -/
theorem startTripFromReservation_no_validation_witness :
    startTripFromReservation { trips := [], reservations := [] }
        1 resvShortNotes "-1" 5 true true =
      ResvStartOutcome.success
        { trips := [{ user_id := 1, vehicle_id := 3, start_mileage := some (-1),
                      destination := "ab", start_time := 5 }],
          reservations := [] } ∧
    mileageValid (-1) = false ∧
    destinationValid "ab" = false :=
  ⟨(startTripFromReservation_no_validation { trips := [], reservations := [] }
        1 resvShortNotes "-1" 5 (by decide)).trans (by decide),
   by decide, by decide⟩

/-! ### Lemmas about the rankings fold -/

/-- Splitting the per-user distance sum at the head row. -/
theorem sumKmBy_cons (t : RankingTripRow) (l : List RankingTripRow) (uid : Nat) :
    sumKmBy (t :: l) uid =
      (if t.user_id = uid then rankingDistance t else 0) + sumKmBy l uid := by
  by_cases h : t.user_id = uid <;> simp [sumKmBy, List.filter_cons, h]

/-- Splitting the per-user row count at the head row. -/
theorem countBy_cons (t : RankingTripRow) (l : List RankingTripRow) (uid : Nat) :
    countBy (t :: l) uid =
      (if t.user_id = uid then 1 else 0) + countBy l uid := by
  by_cases h : t.user_id = uid <;> simp [countBy, List.filter_cons, h, Nat.add_comm]

/-- After one fold step some entry carries the user of the added row. -/
theorem rankingAddTrip_exists_self (acc : List UserRanking) (t : RankingTripRow) :
    ∃ u1 ∈ rankingAddTrip acc t, u1.user_id = t.user_id := by
  by_cases hany : acc.any (fun x => x.user_id == t.user_id) = true
  · rw [rankingAddTrip, if_pos hany]
    rcases List.any_eq_true.mp hany with ⟨a, ha, hpa⟩
    have hpa2 : (a.user_id == t.user_id) = true := hpa
    refine ⟨_, List.mem_map_of_mem _ ha, ?_⟩
    simp only [hpa2, if_true]
    exact eq_of_beq hpa2
  · rw [rankingAddTrip, if_neg hany]
    exact ⟨_, List.mem_append_right _ (List.mem_singleton_self _), rfl⟩

/-- One fold step keeps an entry for every user already present. -/
theorem rankingAddTrip_exists_of_mem (acc : List UserRanking) (t : RankingTripRow)
    (u0 : UserRanking) (h : u0 ∈ acc) :
    ∃ u1 ∈ rankingAddTrip acc t, u1.user_id = u0.user_id := by
  by_cases hany : acc.any (fun x => x.user_id == t.user_id) = true
  · rw [rankingAddTrip, if_pos hany]
    refine ⟨_, List.mem_map_of_mem _ h, ?_⟩
    by_cases h0 : u0.user_id == t.user_id <;> simp [h0]
  · rw [rankingAddTrip, if_neg hany]
    exact ⟨u0, List.mem_append_left _ h, rfl⟩

/-- The whole fold keeps an entry for every user already present. -/
theorem rankingFold_preserves :
    ∀ (l : List RankingTripRow) (acc : List UserRanking) (uid : Nat),
      (∃ u ∈ acc, u.user_id = uid) →
      ∃ u ∈ l.foldl rankingAddTrip acc, u.user_id = uid := by
  intro l
  induction l with
  | nil => intro acc uid h; simpa using h
  | cons s ls ih =>
      intro acc uid h
      simp only [List.foldl_cons]
      apply ih
      rcases h with ⟨u0, hu0, huid⟩
      rcases rankingAddTrip_exists_of_mem acc s u0 hu0 with ⟨u1, hu1, he⟩
      exact ⟨u1, hu1, he.trans huid⟩

/-- Every row of the folded list contributes an entry for its user. -/
theorem rankingFold_covers :
    ∀ (l : List RankingTripRow) (acc : List UserRanking) (t : RankingTripRow),
      t ∈ l → ∃ u ∈ l.foldl rankingAddTrip acc, u.user_id = t.user_id := by
  intro l
  induction l with
  | nil => intro acc t ht; simp at ht
  | cons s ls ih =>
      intro acc t ht
      simp only [List.foldl_cons]
      rcases List.mem_cons.mp ht with rfl | hmem
      · exact rankingFold_preserves ls _ _ (rankingAddTrip_exists_self acc t)
      · exact ih _ t hmem

/-- Each entry of the rankings fold either descends from an entry of the
accumulator, with the totals of the processed rows added on, or is owned
by a user absent from the accumulator and carries exactly the totals of
the processed rows. -/
theorem rankingFold_totals :
    ∀ (l : List RankingTripRow) (acc : List UserRanking),
      ∀ u ∈ l.foldl rankingAddTrip acc,
        (∃ u0 ∈ acc, u0.user_id = u.user_id ∧
          u.total_km = u0.total_km + sumKmBy l u.user_id ∧
          u.total_trips = u0.total_trips + countBy l u.user_id) ∨
        ((∀ u0 ∈ acc, u0.user_id ≠ u.user_id) ∧
          u.total_km = sumKmBy l u.user_id ∧
          u.total_trips = countBy l u.user_id) := by
  intro l
  induction l with
  | nil =>
      intro acc u hu
      simp only [List.foldl_nil] at hu
      exact Or.inl ⟨u, hu, rfl, by simp [sumKmBy], by simp [countBy]⟩
  | cons t ts ih =>
      intro acc u hu
      simp only [List.foldl_cons] at hu
      rcases ih (rankingAddTrip acc t) u hu with
        ⟨u1, hu1, hid, hkm, hcnt⟩ | ⟨hnone, hkm, hcnt⟩
      · by_cases hany : acc.any (fun x => x.user_id == t.user_id) = true
        · rw [rankingAddTrip, if_pos hany] at hu1
          rcases List.mem_map.mp hu1 with ⟨u0, hu0, hupd⟩
          by_cases h0 : u0.user_id = t.user_id
          · have he : u1 = { u0 with total_km := u0.total_km + rankingDistance t,
                                     total_trips := u0.total_trips + 1 } := by
              rw [← hupd]; simp [h0]
            have huid : u.user_id = t.user_id := by
              rw [← hid, he]; exact h0
            rw [he] at hid hkm hcnt
            simp only at hid hkm hcnt
            refine Or.inl ⟨u0, hu0, hid, ?_, ?_⟩
            · rw [sumKmBy_cons, if_pos huid.symm]; omega
            · rw [countBy_cons, if_pos huid.symm]; omega
          · have he : u1 = u0 := by rw [← hupd]; simp [h0]
            rw [he] at hid hkm hcnt
            have hne : t.user_id ≠ u.user_id := by
              rw [← hid]; exact fun hh => h0 hh.symm
            refine Or.inl ⟨u0, hu0, hid, ?_, ?_⟩
            · rw [sumKmBy_cons, if_neg hne]; omega
            · rw [countBy_cons, if_neg hne]; omega
        · rw [rankingAddTrip, if_neg hany] at hu1
          simp only [List.any_eq_true, beq_iff_eq, not_exists, not_and] at hany
          rcases List.mem_append.mp hu1 with h | h
          · have hne : t.user_id ≠ u.user_id := by
              rw [← hid]; exact fun hh => hany u1 h hh.symm
            refine Or.inl ⟨u1, h, hid, ?_, ?_⟩
            · rw [sumKmBy_cons, if_neg hne]; omega
            · rw [countBy_cons, if_neg hne]; omega
          · have he := List.mem_singleton.mp h
            rw [he] at hid hkm hcnt
            simp only at hid hkm hcnt
            refine Or.inr ⟨fun u0 hu0 hh => hany u0 hu0 (hh.trans hid.symm), ?_, ?_⟩
            · rw [sumKmBy_cons, if_pos hid]; omega
            · rw [countBy_cons, if_pos hid]; omega
      · have hself := rankingAddTrip_exists_self acc t
        rcases hself with ⟨u1, hu1, he1⟩
        have hne : t.user_id ≠ u.user_id := fun hh =>
          hnone u1 hu1 (he1.trans hh)
        refine Or.inr ⟨?_, ?_, ?_⟩
        · intro u0 hu0 hh
          rcases rankingAddTrip_exists_of_mem acc t u0 hu0 with ⟨u2, hu2, he2⟩
          exact hnone u2 hu2 (he2.trans hh)
        · rw [sumKmBy_cons, if_neg hne]; omega
        · rw [countBy_cons, if_neg hne]; omega

/-- The descending comparator on ranking entries is transitive. -/
theorem byTotalKmDesc_trans : ∀ (a b c : UserRanking),
    byTotalKmDesc a b → byTotalKmDesc b c → byTotalKmDesc a c := by
  intro a b c hab hbc
  simp only [byTotalKmDesc, decide_eq_true_eq] at *
  omega

/-- The descending comparator on ranking entries is total. -/
theorem byTotalKmDesc_total : ∀ (a b : UserRanking),
    byTotalKmDesc a b || byTotalKmDesc b a := by
  intro a b
  rcases le_total a.total_km b.total_km with h | h <;> simp [byTotalKmDesc, h]

/-- C5: fetchRankings is deterministic on the same trip set, considers
exactly the trips with a non-null end mileage, gives every listed user a
total equal to the sum of the distances of that user's closed trips and
a count equal to the number of those trips, lists every user owning a
closed trip, and sorts the output by total distance descending. -/
theorem fetchRankings_spec (trips : List RankingTripRow) :
    fetchRankings trips = fetchRankings trips ∧
    fetchRankings trips = fetchRankings (trips.filter (fun t => t.end_mileage.isSome)) ∧
    (∀ u ∈ fetchRankings trips,
      u.total_km = sumKmBy (trips.filter (fun t => t.end_mileage.isSome)) u.user_id ∧
      u.total_trips = countBy (trips.filter (fun t => t.end_mileage.isSome)) u.user_id) ∧
    (∀ t ∈ trips, t.end_mileage.isSome = true →
      ∃ u ∈ fetchRankings trips, u.user_id = t.user_id) ∧
    (fetchRankings trips).Sorted (fun a b => b.total_km ≤ a.total_km) := by
  refine ⟨rfl, ?_, ?_, ?_, ?_⟩
  · simp [fetchRankings, List.filter_filter]
  · intro u hu
    unfold fetchRankings at hu
    have hu2 := List.mem_mergeSort.mp hu
    rcases rankingFold_totals _ [] u hu2 with ⟨u0, h0, -⟩ | ⟨-, hkm, hcnt⟩
    · simp at h0
    · exact ⟨hkm, hcnt⟩
  · intro t ht hsome
    have hmem : t ∈ trips.filter (fun x => x.end_mileage.isSome) :=
      List.mem_filter.mpr ⟨ht, hsome⟩
    rcases rankingFold_covers _ [] t hmem with ⟨u, hu, he⟩
    exact ⟨u, List.mem_mergeSort.mpr hu, he⟩
  · have hp := List.sorted_mergeSort byTotalKmDesc_trans byTotalKmDesc_total
      ((trips.filter (fun t => t.end_mileage.isSome)).foldl rankingAddTrip [])
    exact hp.imp (fun h => by simpa [byTotalKmDesc] using h)

/-- C5 witness: on the single closed trip of user 1 from mileage 100 to
150, the produced entry totals 50 km over 1 trip, and user 1 is
listed. -/
theorem fetchRankings_spec_witness :
    (rankEntryExample.total_km =
        sumKmBy ([rankTripExample].filter (fun t => t.end_mileage.isSome))
          rankEntryExample.user_id ∧
      rankEntryExample.total_trips =
        countBy ([rankTripExample].filter (fun t => t.end_mileage.isSome))
          rankEntryExample.user_id) ∧
    (∃ u ∈ fetchRankings [rankTripExample], u.user_id = rankTripExample.user_id) :=
  ⟨(fetchRankings_spec [rankTripExample]).2.2.1 rankEntryExample (by
      simp [fetchRankings, rankingAddTrip, rankingDistance, rankTripExample,
        rankEntryExample]),
   (fetchRankings_spec [rankTripExample]).2.2.2.1 rankTripExample (by simp)
     (by simp [rankTripExample])⟩

/-! ### Lemmas about the statistics fold -/

/-- Each entry of the statistics fold either descends from an entry of
the accumulator, with at least its trip count, or counts at least one
trip and belongs to a vehicle with a row in the processed list. -/
theorem statFold_origin (issues : List Nat) :
    ∀ (l : List StatTripRow) (acc : List VehicleStat),
      ∀ v ∈ l.foldl (statAddTrip issues) acc,
        (∃ v0 ∈ acc, v0.vehicle_id = v.vehicle_id ∧ v0.total_trips ≤ v.total_trips) ∨
        (1 ≤ v.total_trips ∧ ∃ t ∈ l, t.vehicle_id = v.vehicle_id) := by
  intro l
  induction l with
  | nil =>
      intro acc v hv
      simp only [List.foldl_nil] at hv
      exact Or.inl ⟨v, hv, rfl, le_refl _⟩
  | cons t ts ih =>
      intro acc v hv
      simp only [List.foldl_cons] at hv
      rcases ih (statAddTrip issues acc t) v hv with
        ⟨v1, hv1, hid, hle⟩ | ⟨h1, t2, ht2, hid⟩
      · by_cases hany : acc.any (fun x => x.vehicle_id == t.vehicle_id) = true
        · rw [statAddTrip, if_pos hany] at hv1
          rcases List.mem_map.mp hv1 with ⟨v0, hv0, hupd⟩
          by_cases h0 : v0.vehicle_id = t.vehicle_id
          · have he : v1 = { v0 with total_km := v0.total_km + statDistance t,
                                     total_trips := v0.total_trips + 1 } := by
              rw [← hupd]; simp [h0]
            rw [he] at hid hle
            simp only at hid hle
            exact Or.inl ⟨v0, hv0, hid, by omega⟩
          · have he : v1 = v0 := by rw [← hupd]; simp [h0]
            rw [he] at hid hle
            exact Or.inl ⟨v0, hv0, hid, hle⟩
        · rw [statAddTrip, if_neg hany] at hv1
          rcases List.mem_append.mp hv1 with h | h
          · exact Or.inl ⟨v1, h, hid, hle⟩
          · have he := List.mem_singleton.mp h
            rw [he] at hid hle
            simp only at hid hle
            exact Or.inr ⟨by omega, t, List.mem_cons_self t ts, hid⟩
      · exact Or.inr ⟨h1, t2, List.mem_cons_of_mem t ht2, hid⟩

/-- C9: every vehicle emitted by fetchStats has at least one counted
trip (vehicles without closed trips are omitted), and its reported
average equals total kilometres divided by trip count: the division is
never by zero. -/
theorem fetchStats_spec (trips : List StatTripRow) (issues : List Nat) :
    ∀ v ∈ fetchStats trips issues,
      1 ≤ v.total_trips ∧
      v.avg_km_per_trip = (v.total_km : ℚ) / (v.total_trips : ℚ) ∧
      ∃ t ∈ trips, t.end_mileage.isSome = true ∧ t.vehicle_id = v.vehicle_id := by
  intro v hv
  unfold fetchStats at hv
  have hv2 := List.mem_mergeSort.mp hv
  rcases List.mem_map.mp hv2 with ⟨v0, hv0, he⟩
  rcases statFold_origin issues _ [] v0 hv0 with ⟨v1, h1, -⟩ | ⟨h1, t, ht, hid⟩
  · simp at h1
  · have hf := List.mem_filter.mp ht
    refine ⟨?_, ?_, t, hf.1, hf.2, ?_⟩
    · rw [← he]; simpa using h1
    · rw [← he]
    · rw [← he]; simpa using hid

/-- C9 witness: on the single closed trip of vehicle 1 from mileage 100
to 150, the emitted entry counts 1 trip with average 50 = 50 / 1. -/
theorem fetchStats_spec_witness :
    1 ≤ statEntryExample.total_trips ∧
    statEntryExample.avg_km_per_trip =
      (statEntryExample.total_km : ℚ) / (statEntryExample.total_trips : ℚ) ∧
    ∃ t ∈ [statTripExample], t.end_mileage.isSome = true ∧
      t.vehicle_id = statEntryExample.vehicle_id :=
  fetchStats_spec [statTripExample] [] statEntryExample (by
    simp [fetchStats, statAddTrip, statDistance, issueCount,
      statTripExample, statEntryExample])

end ScanDriveLog
